import Mathlib

/-!
Verification of the educational-analytics pipeline (data_loader.py, analyzer.py).

The pandas/numpy program is shallowly embedded: a DataFrame is a list of rows
plus presence flags for the optional columns; grades and all statistics are
exact rationals (ℚ), with pandas NaN results modelled as `none` (`Option ℚ`);
NaN comparisons, which are `False` in pandas, are modelled by the `none`
branches.  Floating-point rounding is idealised away; no claim depends on it.
-/

namespace EduAnalytics

/-! ## Generic helpers shared by several pipeline stages -/

/-- Keep the first occurrence of each element not already in `seen`, dropping
later repeats.  With `seen = []` this models both `DataFrame.drop_duplicates()`
and `Series.unique()` (first-occurrence order), and the explicit
de-duplication loop in `generate_recommendations`. -/
def dedupSeen [DecidableEq α] (seen : List α) : List α → List α
  | [] => []
  | a :: t => if a ∈ seen then dedupSeen seen t else a :: dedupSeen (a :: seen) t

/-- Models `Series.unique()` / `drop_duplicates()`: first occurrences, in order. -/
def uniqueFirst [DecidableEq α] (l : List α) : List α := dedupSeen [] l

/-- Mean of a list of rationals; the callers below only apply it to nonempty
lists (pandas raises no error either way, so totality is harmless). -/
def qMean (l : List ℚ) : ℚ := l.sum / l.length

/-- Models `Series.mean()`: NaN (`none`) on an empty series. -/
def seriesMean (l : List ℚ) : Option ℚ :=
  if l.isEmpty then none else some (qMean l)

/-- Sample variance (`ddof = 1`).  The source computes `Series.std()`, whose
value is the (generally irrational) square root of this; the embedding keeps
the variance and compares every std threshold through its square.  `none`
models the NaN that pandas returns for fewer than two observations. -/
def sampleVar (l : List ℚ) : Option ℚ :=
  if l.length < 2 then none
  else
    let m := qMean l
    some ((l.map (fun x => (x - m) ^ 2)).sum / ((l.length : ℚ) - 1))

/-- Models `Series.median()`: sort, take the middle element, or the mean of the
two middle elements for an even count; NaN (`none`) on an empty series. -/
def medianQ (l : List ℚ) : Option ℚ :=
  let s := l.insertionSort (· ≤ ·)
  let n := l.length
  if n = 0 then none
  else if n % 2 = 1 then s.get? (n / 2)
  else do
    let a ← s.get? (n / 2 - 1)
    let b ← s.get? (n / 2)
    pure ((a + b) / 2)

/-- Slope of the degree-1 least-squares fit, `np.polyfit(xs, ys, 1)[0]`,
in closed form.  The guarded call sites have at least two distinct `xs`,
making the denominator nonzero. -/
def lsSlope (xs ys : List ℚ) : ℚ :=
  let n : ℚ := xs.length
  let sx := xs.sum
  let sy := ys.sum
  let sxy := ((xs.zip ys).map (fun p => p.1 * p.2)).sum
  let sxx := (xs.map (fun x => x * x)).sum
  (n * sxy - sx * sy) / (n * sxx - sx * sx)

/-- Intercept of the degree-1 least-squares fit, `np.polyfit(xs, ys, 1)[1]`. -/
def lsIntercept (xs ys : List ℚ) : ℚ :=
  let n : ℚ := xs.length
  (ys.sum - lsSlope xs ys * xs.sum) / n

/-- Slope of a fit against 0-based positions, `np.polyfit(np.arange(len(ys)), ys, 1)[0]`:
the x-axis used by the trend tests in `identify_at_risk_students` and
`analyze_performance`. -/
def posSlope (ys : List ℚ) : ℚ :=
  lsSlope ((List.range ys.length).map (fun i => (i : ℚ))) ys

/-- Intercept companion of `posSlope`. -/
def posIntercept (ys : List ℚ) : ℚ :=
  lsIntercept ((List.range ys.length).map (fun i => (i : ℚ))) ys

/-- Python's `key in factor` substring test, on character lists. -/
def isSubstrChars (needle : List Char) : List Char → Bool
  | [] => needle.isEmpty
  | c :: t => needle.isPrefixOf (c :: t) || isSubstrChars needle t

/-- Python's `key in factor` substring test on strings. -/
def isSubstrB (needle hay : String) : Bool := isSubstrChars needle.data hay.data

/-- Bool-valued string-prefix test used to state properties of the generated
risk-factor messages. -/
def strPrefixB (p s : String) : Bool := p.data.isPrefixOf s.data

/-! ## Cleaning stage (`data_loader.clean_data`)

A raw row of the input table: every cell may be missing (pandas NaN).  The
optional `date` column only feeds derived columns (`week`, `month`,
`day_of_week`), which are appended after all filtering and are functions of
`date` alone, so they are not represented. -/

structure RawRow where
  student_id : Option String
  subject : Option String
  grade : Option ℚ
  attendance : Option ℚ
  date : Option ℕ
deriving DecidableEq

/-- Embeds `clean_data` (data_loader.py:70-136): drop exact duplicates, impute
missing grades with the per-subject median, default missing attendance to 1.0,
drop rows still missing a required field, and keep only grades in [1,10].
A row whose `subject` is missing gets no imputation (pandas `groupby` skips
NaN keys, so the `transform('median')` value is NaN there).  The final
`astype(str)` coercions and the date-derived columns do not change any of the
fields represented here. -/
def cleanData (df : List RawRow) : List RawRow :=
  let d1 := dedupSeen [] df
  let d2 := d1.map (fun r =>
    match r.grade with
    | some _ => r
    | none =>
      match r.subject with
      | none => r
      | some s =>
        { r with grade := medianQ ((d1.filter (fun x : RawRow => x.subject == some s)).filterMap (fun x : RawRow => x.grade)) })
  let d3 := d2.map (fun r => { r with attendance := some (r.attendance.getD 1) })
  let d4 := d3.filter (fun r => r.student_id.isSome && r.subject.isSome && r.grade.isSome)
  d4.filter (fun r =>
    match r.grade with
    | some g => decide (1 ≤ g) && decide (g ≤ 10)
    | none => false)

/-- Concrete raw table showing that per-subject median imputation can
re-create duplicate rows after `drop_duplicates` has run: the first row's
missing grade is imputed with the median (7) of its subject, making it
identical to the second row. -/
def c1ExRows : List RawRow :=
  [{ student_id := some "s1", subject := some "Math", grade := none,
     attendance := some 1, date := none },
   { student_id := some "s1", subject := some "Math", grade := some 7,
     attendance := some 1, date := none }]

/-- First output row of `cleanData c1ExRows` (the imputed copy). -/
def c1OutRow : RawRow :=
  { student_id := some "s1", subject := some "Math", grade := some 7,
    attendance := some 1, date := none }

/-! ## Analysis table model (analyzer.py)

A cleaned DataFrame: the required columns `student_id`, `subject`, `grade`
are always present and non-null (the §3 invariant guaranteed by `clean_data`);
each optional column has a presence flag, and a row's field for an absent
column is a meaningless default.  `attendance` cells may still be NaN
(`none`).  Accessing a required column of a frame that lacks it raises in
Python; that case is outside this type and outside every claim below. -/

structure Row where
  student_id : String
  subject : String
  grade : ℚ
  group : String
  week : ℕ
  date : ℕ
  attendance : Option ℚ
deriving DecidableEq

structure Table where
  hasGroup : Bool
  hasWeek : Bool
  hasDate : Bool
  hasAttendance : Bool
  rows : List Row
deriving DecidableEq

/-- Models `date.dt.isocalendar().week`: some fixed function of the date value
(dates are modelled as day numbers).  No claim depends on calendar details. -/
def isoWeek (d : ℕ) : ℕ := d / 7 + 1

/-- Models `df['week'] = df['date'].dt.isocalendar().week`: adds/overwrites the
`week` column in place. -/
def addWeekColumn (df : Table) : Table :=
  { df with hasWeek := true,
            rows := df.rows.map (fun r => { r with week := isoWeek r.date }) }

/-- Grades column of a row list. -/
def gradesOf (rows : List Row) : List ℚ := rows.map (fun r => r.grade)

/-- Share (in percent) of grades at or above a cutoff:
`(grades >= c).mean() * 100`. -/
def ratePct (c : ℚ) (l : List ℚ) : ℚ := ((l.countP (fun g => decide (c ≤ g)) : ℚ) / l.length) * 100

/-- Models `Series.value_counts().sort_index()`: distinct values in ascending
order, each with its frequency. -/
def valueCounts (l : List ℚ) : List (ℚ × ℕ) :=
  ((uniqueFirst l).insertionSort (· ≤ ·)).map (fun g => (g, l.count g))

/-- Weekly mean grades of a row list, grouped by a week key and listed in
ascending week order: `rows.groupby('week')['grade'].mean()` (pandas sorts the
group keys). -/
def weeklyMeansBy (rows : List Row) (wk : Row → ℕ) : List (ℕ × ℚ) :=
  ((uniqueFirst (rows.map wk)).insertionSort (· ≤ ·)).map
    (fun w => (w, qMean (gradesOf (rows.filter (fun r => wk r == w)))))

/-! ### Result records of `analyze_performance` (analyzer.py:16-243)

`std`-named fields carry the sample variance (see `sampleVar`); the
`timestamp` field (wall clock) is not modelled. -/

structure OverallStats where
  total_records : ℕ
  total_students : ℕ
  total_subjects : ℕ
  mean_grade : Option ℚ
  median_grade : Option ℚ
  std_grade : Option ℚ
  min_grade : Option ℚ
  max_grade : Option ℚ
  grade_distribution : List (ℚ × ℕ)
  total_groups : Option ℕ
deriving DecidableEq

structure SubjectStats where
  mean_grade : ℚ
  median_grade : Option ℚ
  std_grade : Option ℚ
  student_count : ℕ
  record_count : ℕ
  pass_rate : ℚ
  excellent_rate : ℚ
  grade_distribution : List (ℚ × ℕ)
deriving DecidableEq

structure GroupStats where
  mean_grade : ℚ
  median_grade : Option ℚ
  student_count : ℕ
  subject_count : ℕ
  pass_rate : ℚ
  attendance_rate : Option ℚ
deriving DecidableEq

structure StudentAggRow where
  student_id : String
  avg_grade : ℚ
  grade_count : ℕ
  grade_std : Option ℚ
  subject_count : ℕ
deriving DecidableEq

structure RiskStudentInfo where
  student_id : String
  avg_grade : ℚ
  grade_count : ℕ
  grade_std : Option ℚ
  subject_count : ℕ
  risk_level : String
  groups : Option (List String)
  trend : Option String
  trend_slope : Option ℚ
deriving DecidableEq

structure OverallTrend where
  slope : ℚ
  intercept : ℚ
  direction : String
  prediction_next_week : ℚ
deriving DecidableEq

structure TrendsInfo where
  weeks : List ℕ
  mean_grades : List ℚ
  overall_trend : Option OverallTrend
deriving DecidableEq

structure CorrEntry where
  subject1 : String
  subject2 : String
  correlation : ℚ
  strength : String
deriving DecidableEq

structure ClusterInfo where
  student_count : ℕ
  avg_grade_mean : Option ℚ
  avg_grade_std : Option ℚ
  student_ids : List String
deriving DecidableEq

/-- Full result of `analyze_performance`.  `correlations`/`clusters` model
dict keys that may be absent (`none`), hold a structured value (`Sum.inl`),
or hold the diagnostic string written by the `except` branch (`Sum.inr`). -/
structure AnalysisResult where
  overall : OverallStats
  by_subject : List (String × SubjectStats)
  by_group : List (String × GroupStats)
  risk_students : List RiskStudentInfo
  trends : Option TrendsInfo
  correlations : Option (List CorrEntry ⊕ String)
  clusters : Option (List (String × ClusterInfo) ⊕ String)
deriving DecidableEq

/-- Section 1 of `analyze_performance` (analyzer.py:46-60): overall statistics.
Every aggregate of a possibly-empty series is `Option`-valued, `none` being
the NaN that pandas produces on zero rows (`float(nan)` raises nothing). -/
def overallStats (df : Table) : OverallStats :=
  let g := gradesOf df.rows
  { total_records := df.rows.length
    total_students := (uniqueFirst (df.rows.map (fun r => r.student_id))).length
    total_subjects := (uniqueFirst (df.rows.map (fun r => r.subject))).length
    mean_grade := seriesMean g
    median_grade := medianQ g
    std_grade := sampleVar g
    min_grade := g.min?
    max_grade := g.max?
    grade_distribution := valueCounts g
    total_groups :=
      if df.hasGroup then some (uniqueFirst (df.rows.map (fun r => r.group))).length else none }

/-- Section 2 (analyzer.py:62-81): statistics for one subject's rows. -/
def subjectStatsOf (rows : List Row) : SubjectStats :=
  let g := gradesOf rows
  { mean_grade := qMean g
    median_grade := medianQ g
    std_grade := sampleVar g
    student_count := (uniqueFirst (rows.map (fun r => r.student_id))).length
    record_count := rows.length
    pass_rate := ratePct 4 g
    excellent_rate := ratePct 9 g
    grade_distribution := valueCounts g }

/-- Section 2 loop: one entry per distinct subject, in first-occurrence order
(`df['subject'].unique()`). -/
def bySubjectStats (df : Table) : List (String × SubjectStats) :=
  (uniqueFirst (df.rows.map (fun r => r.subject))).map
    (fun s => (s, subjectStatsOf (df.rows.filter (fun r => r.subject == s))))

/-- Section 3 (analyzer.py:83-100): per-group statistics, present only when the
`group` column exists.  `attendance_rate` is the `None` placeholder unless the
`attendance` column exists (an all-NaN attendance column also yields `none`). -/
def byGroupStats (df : Table) : List (String × GroupStats) :=
  if df.hasGroup then
    (uniqueFirst (df.rows.map (fun r => r.group))).map (fun grp =>
      let rows := df.rows.filter (fun r => r.group == grp)
      let g := gradesOf rows
      (grp,
        { mean_grade := qMean g
          median_grade := medianQ g
          student_count := (uniqueFirst (rows.map (fun r => r.student_id))).length
          subject_count := (uniqueFirst (rows.map (fun r => r.subject))).length
          pass_rate := ratePct 4 g
          attendance_rate :=
            if df.hasAttendance then
              (seriesMean (rows.filterMap (fun r => r.attendance))).map (· * 100)
            else none }))
  else []

/-- Rounding to two decimals, `DataFrame.round(2)` (numpy's round-half-to-even
at the exact midpoints is abstracted to `round`; no claim sits on a midpoint). -/
def round2 (q : ℚ) : ℚ := (round (q * 100) : ℤ) / 100

/-- Section 4 (analyzer.py:103-109): `df.groupby('student_id').agg(...)` —
per-student mean/count/std of grades and distinct-subject count, rounded to
two decimals, with group keys in ascending order (pandas groupby sorts). -/
def studentAgg (df : Table) : List StudentAggRow :=
  ((uniqueFirst (df.rows.map (fun r => r.student_id))).insertionSort (· ≤ ·)).map
    (fun sid =>
      let g := gradesOf (df.rows.filter (fun r => r.student_id == sid))
      { student_id := sid
        avg_grade := round2 (qMean g)
        grade_count := g.length
        grade_std := (sampleVar g).map round2
        subject_count :=
          (uniqueFirst ((df.rows.filter (fun r => r.student_id == sid)).map
            (fun r => r.subject))).length })

/-- Section 4 filter (analyzer.py:112): students with at least `min_records`
records; this filtered list also feeds the clustering stage. -/
def filteredStats (df : Table) (min_records : ℕ) : List StudentAggRow :=
  (studentAgg df).filter (fun s => decide (min_records ≤ s.grade_count))

/-- Section 4 (analyzer.py:117-149): information recorded for one at-risk
student of the simple variant.  The trend block runs when a `week` or `date`
column exists; a `week` column is derived from `date` on a per-student copy
(the copy's mutation is invisible to the caller), and the slope is fitted
against 0-based positions (`np.arange`). -/
def riskStudentInfo (df : Table) (s : StudentAggRow) : RiskStudentInfo :=
  let sdata := df.rows.filter (fun r => r.student_id == s.student_id)
  let trendPair : Option String × Option ℚ :=
    if df.hasWeek || df.hasDate then
      let wk : Row → ℕ := fun r => if df.hasWeek then r.week else isoWeek r.date
      let wg := weeklyMeansBy sdata wk
      if 1 < wg.length then
        let slope := posSlope (wg.map (fun p => p.2))
        (some (if (1/10 : ℚ) < slope then "positive"
               else if slope < -(1/10 : ℚ) then "negative" else "stable"),
         some slope)
      else (none, none)
    else (none, none)
  { student_id := s.student_id
    avg_grade := s.avg_grade
    grade_count := s.grade_count
    grade_std := s.grade_std
    subject_count := s.subject_count
    risk_level := if s.avg_grade < 4 then "high" else "medium"
    groups :=
      if df.hasGroup then some (uniqueFirst (sdata.map (fun r => r.group))) else none
    trend := trendPair.1
    trend_slope := trendPair.2 }

/-- Section 4 (analyzer.py:115-149): the simple at-risk list — students with
enough records whose (rounded) mean grade is below the threshold. -/
def riskStudents (df : Table) (risk_threshold : ℚ) (min_records : ℕ) : List RiskStudentInfo :=
  ((filteredStats df min_records).filter (fun s => decide (s.avg_grade < risk_threshold))).map
    (riskStudentInfo df)

/-- Section 5 first half (analyzer.py:152-154): the caller's frame after
`analyze_performance` returns.  When a `date` column is present and `week` is
not, the function writes the derived `week` column into the caller's frame in
place; in every other case the frame is untouched. -/
def tableAfterTrends (df : Table) : Table :=
  if df.hasWeek || df.hasDate then
    (if !df.hasWeek then addWeekColumn df else df)
  else df

/-- Section 5 (analyzer.py:156-175): weekly mean-grade trend over the (possibly
just-derived) `week` column, with a position-axis linear fit when more than one
week is present. -/
def trendsInfo (df : Table) : Option TrendsInfo :=
  if df.hasWeek || df.hasDate then
    let d := tableAfterTrends df
    let wt := weeklyMeansBy d.rows (fun r => r.week)
    let ys := wt.map (fun p => p.2)
    some
      { weeks := wt.map (fun p => p.1)
        mean_grades := ys.map round2
        overall_trend :=
          if 1 < wt.length then
            let slope := posSlope ys
            let intercept := posIntercept ys
            some
              { slope := slope
                intercept := intercept
                direction := if (1/20 : ℚ) < slope then "improving"
                             else if slope < -(1/20 : ℚ) then "declining" else "stable"
                prediction_next_week := slope * wt.length + intercept }
          else none }
  else none

/-- Pearson correlation of paired observations, carried as sign(r)·r² to stay
inside ℚ (r itself is a square root); the ordering by |r| and every magnitude
threshold (0.3, 0.5, 0.7) are preserved by comparing through squares.  `none`
models the NaN pandas yields for fewer than two pairs or zero variance. -/
def corrSigned (ps : List (ℚ × ℚ)) : Option ℚ :=
  if ps.length < 2 then none
  else
    let n : ℚ := ps.length
    let xs := ps.map (fun p => p.1)
    let ys := ps.map (fun p => p.2)
    let cov := n * ((ps.map (fun p => p.1 * p.2)).sum) - xs.sum * ys.sum
    let vx := n * ((xs.map (fun x => x * x)).sum) - xs.sum * xs.sum
    let vy := n * ((ys.map (fun y => y * y)).sum) - ys.sum * ys.sum
    if vx = 0 ∨ vy = 0 then none
    else some (cov * |cov| / (vx * vy))

/-- Upper-triangle pairs `i < j` of a list, in row-major order — the double
loop over `corr_matrix.columns` (analyzer.py:192-193). -/
def pairsUpper : List α → List (α × α)
  | [] => []
  | a :: t => (t.map (fun b => (a, b))) ++ pairsUpper t

/-- Ordering used for `correlations.sort(key=abs, reverse=True)`. -/
def corrGe (a b : CorrEntry) : Prop := |b.correlation| ≤ |a.correlation|

instance : DecidableRel corrGe := fun a b => by unfold corrGe; infer_instance

instance : IsTotal CorrEntry corrGe :=
  ⟨fun a b => (le_total |b.correlation| |a.correlation|).imp id id⟩

instance : IsTrans CorrEntry corrGe :=
  ⟨fun _ _ _ hab hbc => le_trans hbc hab⟩

/-- Section 6 body (analyzer.py:178-206): pivot to a student × subject
mean-grade matrix (pandas sorts both axes), drop students with fewer than 3
non-null entries, and — when more than one subject and more than five students
remain — list the subject pairs with |r| > 0.3, strongest first, top 10.
`.ok none` models a run that sets no `correlations` key (guard false);
the modelled pandas calls themselves are total, so the `.error` branch of the
`try` is never produced by this implementation. -/
def corrStage (df : Table) : Except String (Option (List CorrEntry)) :=
  .ok <|
    let subjects := (uniqueFirst (df.rows.map (fun r => r.subject))).insertionSort (· ≤ ·)
    let studs := (uniqueFirst (df.rows.map (fun r => r.student_id))).insertionSort (· ≤ ·)
    let cell : String → String → Option ℚ := fun sid sub =>
      let g := gradesOf (df.rows.filter (fun r => r.student_id == sid && r.subject == sub))
      if g.isEmpty then none else some (qMean g)
    let kept := studs.filter (fun sid => decide (3 ≤ (subjects.countP (fun sub => (cell sid sub).isSome))))
    if 1 < subjects.length ∧ 5 < kept.length then
      let entries := (pairsUpper subjects).filterMap (fun p =>
        let ps := kept.filterMap (fun sid =>
          match cell sid p.1, cell sid p.2 with
          | some x, some y => some (x, y)
          | _, _ => none)
        match corrSigned ps with
        | none => none
        | some c =>
          if (9/100 : ℚ) < |c| then
            some { subject1 := p.1, subject2 := p.2, correlation := c,
                   strength := if (49/100 : ℚ) < |c| then "strong"
                               else if (25/100 : ℚ) < |c| then "moderate" else "weak" }
          else none)
      some ((entries.insertionSort corrGe).take 10)
    else none

/-- Abstraction of `sklearn.cluster.KMeans(n_clusters, random_state=42,
n_init=10).fit_predict` on the standardised (avg, count, std) features: the
exact partition is an implementation-defined floating-point computation, so the
model fixes an arbitrary deterministic assignment (index mod k).  No claim
inspects the partition itself. -/
def kmeansAssign (k : ℕ) (pts : List (ℚ × ℚ × ℚ)) : List ℕ :=
  (List.range pts.length).map (fun i => i % k)

/-- Section 7 body (analyzer.py:211-239): cluster the filtered per-student
statistics when at least 10 students qualify; report per-cluster size, mean and
std of the average grade, and up to 10 member ids.  `.ok none` models a run
that sets no `clusters` key. -/
def clusterStage (stats : List StudentAggRow) : Except String (Option (List (String × ClusterInfo))) :=
  .ok <|
    if 10 ≤ stats.length then
      let k := min 4 (stats.length / 3)
      let assign := kmeansAssign k (stats.map (fun s =>
        (s.avg_grade, (s.grade_count : ℚ), (s.grade_std.getD 0))))
      some ((List.range k).map (fun cid =>
        let members := ((stats.zip assign).filter (fun p => p.2 == cid)).map (fun p => p.1)
        let avgs := members.map (fun s => s.avg_grade)
        ("cluster_" ++ toString cid,
          { student_count := members.length
            avg_grade_mean := seriesMean avgs
            avg_grade_std := sampleVar avgs
            student_ids := (members.map (fun s => s.student_id)).take 10 })))
    else none

/-- Embeds `analyze_performance` (analyzer.py:16-243) with the bodies of the two
`try` blocks abstracted as parameters: sections 1-5 are computed directly, the
caller's frame is mutated exactly as in section 5, and each stage's exception
(`Except.error`) is swallowed into the diagnostic string of the corresponding
`except` branch.  The pair's second component is the caller's frame after the
call. -/
def analyzePerformanceWith
    (corr : Table → Except String (Option (List CorrEntry)))
    (clus : List StudentAggRow → Except String (Option (List (String × ClusterInfo))))
    (df : Table) (risk_threshold : ℚ) (min_records : ℕ) : AnalysisResult × Table :=
  let df' := tableAfterTrends df
  ({ overall := overallStats df
     by_subject := bySubjectStats df
     by_group := byGroupStats df
     risk_students := riskStudents df risk_threshold min_records
     trends := trendsInfo df
     correlations :=
       match corr df' with
       | .error e => some (.inr ("Не удалось вычислить корреляции: " ++ e))
       | .ok none => none
       | .ok (some v) => some (.inl v)
     clusters :=
       match clus (filteredStats df min_records) with
       | .error e => some (.inr ("Не удалось выполнить кластеризацию: " ++ e))
       | .ok none => none
       | .ok (some v) => some (.inl v) },
   df')

/-- The concrete `analyze_performance`, with the actual section 6 and 7
bodies plugged in. -/
def analyzePerformance (df : Table) (risk_threshold : ℚ) (min_records : ℕ) :
    AnalysisResult × Table :=
  analyzePerformanceWith corrStage clusterStage df risk_threshold min_records

/-- Zero-row frame that still has the three required columns. -/
def emptyTable : Table :=
  { hasGroup := false, hasWeek := false, hasDate := false, hasAttendance := false, rows := [] }

/-- One-row frame with a `date` column and no `week` column. -/
def dateOnlyTable : Table :=
  { hasGroup := false, hasWeek := false, hasDate := true, hasAttendance := false,
    rows := [{ student_id := "s1", subject := "Math", grade := 5, group := "",
               week := 0, date := 14, attendance := none }] }

/-- One-row frame used as the C9 witness input. -/
def oneRowTable : Table :=
  { hasGroup := false, hasWeek := false, hasDate := false, hasAttendance := false,
    rows := [{ student_id := "s1", subject := "Math", grade := 5, group := "",
               week := 0, date := 0, attendance := none }] }

/-- Per-subject statistics of `oneRowTable`'s single subject. -/
def oneRowMathStats : SubjectStats :=
  { mean_grade := 5, median_grade := some 5, std_grade := none,
    student_count := 1, record_count := 1, pass_rate := 100, excellent_rate := 0,
    grade_distribution := [(5, 1)] }

/-! ## Multi-factor risk scoring (`identify_at_risk_students`, analyzer.py:246-350)
and recommendations (`generate_recommendations`, analyzer.py:517-572)

The factor messages interpolate numbers with Python float formatting
(`:.2f`/`:.1f`); the embedding renders the exact rational instead.  Only the
textual prefix of a factor is semantically relevant: `generate_recommendations`
matches map keys as substrings of the factor. -/

/-- Rendering of a rational inside a factor message (stands in for `:.2f`). -/
def fmtQ (q : ℚ) : String := toString q.num ++ "/" ++ toString q.den

def lowAvgFactor (a : ℚ) : String := "Низкая средняя оценка (" ++ fmtQ a ++ ")"

def highVarFactor (v : ℚ) : String := "Высокая изменчивость оценок (σ=" ++ fmtQ v ++ ")"

def declineFactor (s : ℚ) : String := "Снижение успеваемости (тренд: " ++ fmtQ s ++ "/неделю)"

def sharpDropFactor (a b : ℚ) : String :=
  "Резкое падение успеваемости (" ++ fmtQ a ++ " → " ++ fmtQ b ++ ")"

def lowAttFactor (a : ℚ) : String := "Низкая посещаемость (" ++ fmtQ a ++ "%)"

/-- The `recommendations_map` dict (analyzer.py:532-558), in insertion order. -/
def recommendationsMap : List (String × List String) :=
  [("Низкая средняя оценка",
    ["Обратиться за помощью к преподавателю",
     "Составить индивидуальный план обучения",
     "Увеличить время подготовки к занятиям"]),
   ("Высокая изменчивость оценок",
    ["Проанализировать причины колебаний успеваемости",
     "Разработать стратегию стабильной подготовки",
     "Обратить внимание на организацию времени"]),
   ("Снижение успеваемости",
    ["Провести диагностику причин снижения мотивации",
     "Установить краткосрочные учебные цели",
     "Увеличить частоту самопроверок"]),
   ("Резкое падение успеваемости",
    ["Срочно обратиться к куратору группы",
     "Провести индивидуальную консультацию с преподавателем",
     "Пересмотреть учебную нагрузку"]),
   ("Низкая посещаемость",
    ["Проанализировать причины пропусков",
     "Составить график посещения занятий",
     "Установить систему напоминаний"])]

/-- Embeds `generate_recommendations` (analyzer.py:517-572): for each factor, append
the remediation list of every map key occurring in the factor as a substring;
de-duplicate preserving first occurrence; truncate to 5. -/
def generateRecommendations (risk_factors : List String) : List String :=
  let recs := risk_factors.flatMap (fun factor =>
    recommendationsMap.flatMap (fun kv => if isSubstrB kv.1 factor then kv.2 else []))
  (dedupSeen [] recs).take 5

/-- Output row of `identify_at_risk_students` (analyzer.py:327-336);
`grade_std` carries the sample variance (see `sampleVar`). -/
structure AtRiskRow where
  student_id : String
  avg_grade : ℚ
  grade_std : Option ℚ
  subject_count : ℕ
  total_grades : ℕ
  risk_factors : List String
  risk_score : ℕ
  recommendations : List String
  group : Option String
deriving DecidableEq

/-- Ordering of `sort_values(['risk_score', 'avg_grade'], ascending=[False, True])`. -/
def atRiskLe (a b : AtRiskRow) : Prop :=
  b.risk_score < a.risk_score ∨ (a.risk_score = b.risk_score ∧ a.avg_grade ≤ b.avg_grade)

instance : DecidableRel atRiskLe := fun a b => by unfold atRiskLe; infer_instance

instance : IsTotal AtRiskRow atRiskLe := ⟨by
  intro a b
  rcases lt_trichotomy a.risk_score b.risk_score with h | h | h
  · exact Or.inr (Or.inl h)
  · rcases le_total a.avg_grade b.avg_grade with h2 | h2
    · exact Or.inl (Or.inr ⟨h, h2⟩)
    · exact Or.inr (Or.inr ⟨h.symm, h2⟩)
  · exact Or.inl (Or.inl h)⟩

instance : IsTrans AtRiskRow atRiskLe := ⟨by
  intro a b c hab hbc
  rcases hab with h | ⟨h1, h2⟩
  · rcases hbc with h' | ⟨h1', _⟩
    · exact Or.inl (h'.trans h)
    · exact Or.inl (h1' ▸ h)
  · rcases hbc with h' | ⟨h1', h2'⟩
    · exact Or.inl (h1 ▸ h')
    · exact Or.inr ⟨h1.trans h1', h2.trans h2'⟩⟩

/-- Risk predicates of the `identify_at_risk_students` loop
(analyzer.py:287-323), in source order: the triggered factor messages for one
student.  NaN guards: a single-grade std is NaN (`none`), so predicate 2 is
skipped; `np.mean` of an empty half is NaN, so predicate 4 is skipped when a
half is empty; an all-NaN attendance mean is NaN, so predicate 5 is skipped. -/
def riskFactorsFor (dfc : Table) (threshold : ℚ) (min_weeks : ℕ) (decline_threshold : ℚ)
    (sid : String) : List String :=
  let sdata := dfc.rows.filter (fun r => r.student_id == sid)
  let grades := gradesOf sdata
  let avg := qMean grades
  let gvar := sampleVar grades
  let f1 := if avg < threshold then [lowAvgFactor avg] else []
  let f2 :=
    match gvar with
    | some v => if (25/4 : ℚ) < v then [highVarFactor v] else []
    | none => []
  let f34 :=
    if dfc.hasWeek = true ∧ min_weeks ≤ (uniqueFirst (sdata.map (fun r => r.week))).length then
      let wg := weeklyMeansBy sdata (fun r => r.week)
      if min_weeks ≤ wg.length then
        let ys := wg.map (fun p => p.2)
        let slope := posSlope ys
        let d := if slope < -(1/5 : ℚ) then [declineFactor slope] else []
        let s :=
          match seriesMean (ys.take (ys.length / 2)), seriesMean (ys.drop (ys.length / 2)) with
          | some fh, some sh =>
            if decline_threshold < fh - sh then [sharpDropFactor fh sh] else []
          | _, _ => []
        d ++ s
      else []
    else []
  let f5 :=
    if dfc.hasAttendance then
      match seriesMean (sdata.filterMap (fun r => r.attendance)) with
      | some ar => if ar < 7/10 then [lowAttFactor (ar * 100)] else []
      | none => []
    else []
  f1 ++ f2 ++ f34 ++ f5

/-- Per-student body of the `identify_at_risk_students` loop
(analyzer.py:278-342): the student's output row when at least one factor
triggered, nothing otherwise. -/
def atRiskInfoFor (dfc : Table) (threshold : ℚ) (min_weeks : ℕ) (decline_threshold : ℚ)
    (sid : String) : Option AtRiskRow :=
  let sdata := dfc.rows.filter (fun r => r.student_id == sid)
  let factors := riskFactorsFor dfc threshold min_weeks decline_threshold sid
  if factors.isEmpty then none
  else some
    { student_id := sid
      avg_grade := qMean (gradesOf sdata)
      grade_std := sampleVar (gradesOf sdata)
      subject_count := (uniqueFirst (sdata.map (fun r => r.subject))).length
      total_grades := sdata.length
      risk_factors := factors
      risk_score := factors.length
      recommendations := generateRecommendations factors
      group := if dfc.hasGroup then sdata.head?.map (fun r => r.group) else none }

/-- Embeds `identify_at_risk_students` (analyzer.py:246-350): work on a copy of the
frame (deriving `week` from `date` if needed), evaluate the risk predicates
per student, keep only students with at least one factor, and sort by risk
score descending with mean grade ascending as tie-break. -/
def identifyAtRisk (df : Table) (threshold : ℚ) (min_weeks : ℕ)
    (decline_threshold : ℚ) : List AtRiskRow :=
  let dfc := if !df.hasWeek && df.hasDate then addWeekColumn df else df
  let studs := uniqueFirst (dfc.rows.map (fun r => r.student_id))
  (studs.filterMap (atRiskInfoFor dfc threshold min_weeks decline_threshold)).insertionSort atRiskLe

/-! ## Prediction stage (`predict_final_grades`, analyzer.py:439-514) -/

structure Prediction where
  student_id : String
  subject : String
  current_week : ℕ
  weeks_available : ℕ
  current_avg_grade : ℚ
  predicted_final_grade : ℚ
  prediction_confidence : ℚ
  trend : String
  trend_slope : ℚ
  group : Option String
deriving DecidableEq

/-- Ordering of `sort_values(['student_id', 'subject'])`. -/
def predLe (a b : Prediction) : Prop :=
  a.student_id < b.student_id ∨ (a.student_id = b.student_id ∧ a.subject ≤ b.subject)

instance : DecidableRel predLe := fun a b => by unfold predLe; infer_instance

/-- Weekly mean grades of one (student, subject) pair, in ascending week
order, as used by `predict_final_grades` (analyzer.py:473). -/
def pairWeekly (df : Table) (sid subj : String) : List (ℕ × ℚ) :=
  weeklyMeansBy ((df.rows.filter (fun r => r.student_id == sid)).filter
    (fun r => r.subject == subj)) (fun r => r.week)

/-- Per-pair body of `predict_final_grades` (analyzer.py:468-509): with at
least two observed weeks, fit a line over the *actual week numbers*
(`weeks = np.array(weekly_grades.index)`), predict week 16 clamped to [1,10],
and classify the trend.  (With `current_week = 0` Python would raise a
ZeroDivisionError computing the confidence; ℚ division by zero yields 0
here — no claim touches that case.) -/
def predictionFor (df : Table) (cw : ℕ) (sid subj : String) : Option Prediction :=
  if df.hasWeek then
    let wg := pairWeekly df sid subj
    if 2 ≤ wg.length then
      let weeks : List ℚ := wg.map (fun p => (p.1 : ℚ))
      let grades := wg.map (fun p => p.2)
      let slope := lsSlope weeks grades
      let intercept := lsIntercept weeks grades
      some
        { student_id := sid
          subject := subj
          current_week := cw
          weeks_available := wg.length
          current_avg_grade := qMean grades
          predicted_final_grade := max 1 (min 10 (slope * 16 + intercept))
          prediction_confidence := min 1 ((wg.length : ℚ) / (cw : ℚ))
          trend := if (1/20 : ℚ) < slope then "improving"
                   else if slope < -(1/20 : ℚ) then "declining" else "stable"
          trend_slope := slope
          group := if df.hasGroup then
              (((df.rows.filter (fun r => r.student_id == sid)).filter
                (fun r => r.subject == subj)).head?).map (fun r => r.group)
            else none }
    else none
  else none

/-- Embeds `predict_final_grades` (analyzer.py:439-514): default the current week to
the maximum week present (or 10 without a `week` column), emit one prediction
per (student, subject) pair with at least two observed weeks, and sort by
(student_id, subject). -/
def predictFinalGrades (df : Table) (current_week : Option ℕ) : List Prediction :=
  let cw := match current_week with
    | some w => w
    | none => if df.hasWeek then ((df.rows.map (fun r => r.week)).max?).getD 0 else 10
  let preds := (uniqueFirst (df.rows.map (fun r => r.student_id))).flatMap (fun sid =>
    (uniqueFirst ((df.rows.filter (fun r => r.student_id == sid)).map
        (fun r => r.subject))).filterMap (fun subj => predictionFor df cw sid subj))
  preds.insertionSort predLe

/-- Frame of the §8 scenario: one student with one grade per week over six
weeks, weekly means [8,8,8,8,4,4]. -/
def riskTable : Table :=
  { hasGroup := false, hasWeek := true, hasDate := false, hasAttendance := false,
    rows :=
      [{ student_id := "s1", subject := "Math", grade := 8, group := "", week := 1, date := 0, attendance := none },
       { student_id := "s1", subject := "Math", grade := 8, group := "", week := 2, date := 0, attendance := none },
       { student_id := "s1", subject := "Math", grade := 8, group := "", week := 3, date := 0, attendance := none },
       { student_id := "s1", subject := "Math", grade := 8, group := "", week := 4, date := 0, attendance := none },
       { student_id := "s1", subject := "Math", grade := 4, group := "", week := 5, date := 0, attendance := none },
       { student_id := "s1", subject := "Math", grade := 4, group := "", week := 6, date := 0, attendance := none }] }

/-- The single row `identify_at_risk_students` produces on `riskTable` with
threshold 5, min_weeks 3, decline_threshold 1.5: mean 20/3, sample variance
64/15 (std ≈ 2.07, below 2.5), position-axis slope −32/35 ≈ −0.91, half
means 8 and 16/3. -/
def riskTableRow : AtRiskRow :=
  { student_id := "s1"
    avg_grade := 20/3
    grade_std := some (64/15)
    subject_count := 1
    total_grades := 6
    risk_factors := [declineFactor (-(32/35)), sharpDropFactor 8 (16/3)]
    risk_score := 2
    recommendations := generateRecommendations [declineFactor (-(32/35)), sharpDropFactor 8 (16/3)]
    group := none }

/-- Frame with one (student, subject) pair observed in the non-consecutive
weeks 1, 2, 4 with weekly means 10, 9, 7 (an exact fit of y = 11 − x). -/
def predTable : Table :=
  { hasGroup := false, hasWeek := true, hasDate := false, hasAttendance := false,
    rows :=
      [{ student_id := "s1", subject := "Math", grade := 10, group := "", week := 1, date := 0, attendance := none },
       { student_id := "s1", subject := "Math", grade := 9, group := "", week := 2, date := 0, attendance := none },
       { student_id := "s1", subject := "Math", grade := 7, group := "", week := 4, date := 0, attendance := none }] }

/-- The prediction row `predict_final_grades` emits on `predTable` with
current week 4: slope −1 over the actual weeks, week-16 extrapolation
−1·16 + 11 = −5, clamped up to 1. -/
def predRow : Prediction :=
  { student_id := "s1", subject := "Math", current_week := 4, weeks_available := 3,
    current_avg_grade := 26/3, predicted_final_grade := 1, prediction_confidence := 3/4,
    trend := "declining", trend_slope := -1, group := none }

/-! ## Theorems -/

theorem dedupSeen_nodup [DecidableEq α] :
    ∀ (l seen : List α), (dedupSeen seen l).Nodup ∧ ∀ a ∈ dedupSeen seen l, a ∉ seen := by
  intro l
  induction l with
  | nil => intro seen; exact ⟨List.nodup_nil, by simp [dedupSeen]⟩
  | cons a t ih =>
    intro seen
    by_cases h : a ∈ seen
    · simpa [dedupSeen, h] using ih seen
    · have h1 := ih (a :: seen)
      refine ⟨?_, ?_⟩
      · simp only [dedupSeen, h, if_false, List.nodup_cons]
        exact ⟨fun hmem => (h1.2 a hmem) (List.mem_cons_self a seen), h1.1⟩
      · intro b hb
        simp only [dedupSeen, h, if_false, List.mem_cons] at hb
        rcases hb with rfl | hb
        · exact h
        · exact fun hs => (h1.2 b hb) (List.mem_cons_of_mem a hs)

theorem uniqueFirst_nodup [DecidableEq α] (l : List α) : (uniqueFirst l).Nodup :=
  (dedupSeen_nodup l []).1

/-- C1 (counterexample): the claim "the output contains no exact-duplicate
rows" fails.  On the concrete raw table `c1ExRows` — a row with a missing
grade next to an otherwise identical row with grade 7 — `clean_data`
deduplicates first and imputes afterwards, so the imputed row becomes an
exact duplicate of the other and the cleaned output contains two identical
rows. -/
theorem clean_data_c1_counterexample : ¬ (cleanData c1ExRows).Nodup := by decide

/-- C1 (amended): every row of the table returned by `clean_data` has
non-null `student_id`, `subject` and `grade`, with `grade` in [1,10]; the
exact-duplicate rows of the *input* are removed (the deduplication step
produces a duplicate-free list), but per-subject median imputation, which
runs after deduplication, may re-create exact-duplicate rows in the output. -/
theorem clean_data_c1_invariant (df : List RawRow) :
    (∀ r ∈ cleanData df, r.student_id.isSome = true ∧ r.subject.isSome = true ∧
        ∃ g, r.grade = some g ∧ 1 ≤ g ∧ g ≤ 10)
    ∧ (dedupSeen [] df).Nodup := by
  refine ⟨?_, (dedupSeen_nodup df []).1⟩
  intro r hr
  unfold cleanData at hr
  simp only [List.mem_filter] at hr
  obtain ⟨⟨_, h4⟩, h5⟩ := hr
  simp only [Bool.and_eq_true] at h4
  obtain ⟨⟨hsid, hsub⟩, hg⟩ := h4
  rw [Option.isSome_iff_exists] at hg
  obtain ⟨g, hg⟩ := hg
  rw [hg] at h5
  simp only [Bool.and_eq_true, decide_eq_true_eq] at h5
  exact ⟨hsid, hsub, g, hg, h5.1, h5.2⟩

/-- Witness for the amended C1 theorem at the concrete table `c1ExRows`,
with the membership hypothesis discharged on the imputed output row. -/
theorem clean_data_c1_invariant_witness :
    (c1OutRow.student_id.isSome = true ∧ c1OutRow.subject.isSome = true ∧
        ∃ g, c1OutRow.grade = some g ∧ 1 ≤ g ∧ g ≤ 10)
    ∧ (dedupSeen [] c1ExRows).Nodup :=
  ⟨(clean_data_c1_invariant c1ExRows).1 c1OutRow (by decide),
   (clean_data_c1_invariant c1ExRows).2⟩

/-- C2 (counterexample): on the concrete zero-row frame that has the required
columns, `analyze_performance` does not raise — pandas aggregations of an
empty numeric series yield NaN (`none`), `float(nan)` raises nothing, and
every later loop is over an empty collection — so a result is returned, with
zero counts, NaN overall statistics and an empty risk list. -/
theorem analyze_performance_c2_counterexample :
    (analyzePerformance emptyTable 5 3).1.overall.total_records = 0 ∧
    (analyzePerformance emptyTable 5 3).1.overall.mean_grade = none ∧
    (analyzePerformance emptyTable 5 3).1.risk_students = [] := by decide

/-- C2 (amended): for every frame with the required columns but zero rows,
`analyze_performance` returns a result rather than raising: total_records is
0, the mean grade is NaN (`none`), and the per-subject and risk lists are
empty.  (An error is raised only when a required column is missing, e.g. on a
completely empty `DataFrame()` — the case the test suite exercises — which is
outside this claim and outside the `Table` type.) -/
theorem analyze_performance_c2_empty (df : Table) (rt : ℚ) (mr : ℕ)
    (h : df.rows = []) :
    (analyzePerformance df rt mr).1.overall.total_records = 0 ∧
    (analyzePerformance df rt mr).1.overall.mean_grade = none ∧
    (analyzePerformance df rt mr).1.by_subject = [] ∧
    (analyzePerformance df rt mr).1.risk_students = [] := by
  obtain ⟨hg, hw, hd, ha, rows⟩ := df
  cases h
  refine ⟨rfl, rfl, rfl, ?_⟩
  simp [analyzePerformance, analyzePerformanceWith, riskStudents, filteredStats,
    studentAgg, uniqueFirst, dedupSeen, List.insertionSort]

/-- Witness for the amended C2 theorem at the concrete empty frame. -/
theorem analyze_performance_c2_empty_witness :
    (analyzePerformance emptyTable 5 3).1.overall.total_records = 0 ∧
    (analyzePerformance emptyTable 5 3).1.overall.mean_grade = none ∧
    (analyzePerformance emptyTable 5 3).1.by_subject = [] ∧
    (analyzePerformance emptyTable 5 3).1.risk_students = [] :=
  analyze_performance_c2_empty emptyTable 5 3 rfl

/-- C3 (counterexample): `analyze_performance` does not always leave the
caller's frame unchanged.  On a concrete one-row frame that has a `date`
column but no `week` column, section 5 writes the derived `week` column into
the caller's frame in place, so the frame after the call differs from the
frame before it. -/
theorem analyze_performance_c3_counterexample :
    (analyzePerformance dateOnlyTable 5 3).2 ≠ dateOnlyTable := by decide

/-- C3 (amended): `analyze_performance` leaves the caller's frame unchanged
unless the frame has a `date` column and no `week` column, in which case it
adds the derived `week` column to the caller's frame in place; no other state
crosses the call boundary. -/
theorem analyze_performance_c3_frame (df : Table) (rt : ℚ) (mr : ℕ)
    (h : df.hasDate = false ∨ df.hasWeek = true) :
    (analyzePerformance df rt mr).2 = df := by
  show tableAfterTrends df = df
  unfold tableAfterTrends
  rcases h with h | h <;> rw [h]
  · cases hw : df.hasWeek <;> simp
  · simp

/-- Witness for the amended C3 theorem: a frame without a `date` column is
returned unchanged. -/
theorem analyze_performance_c3_frame_witness :
    (analyzePerformance emptyTable 5 3).2 = emptyTable :=
  analyze_performance_c3_frame emptyTable 5 3 (Or.inl rfl)

/-- C7: the correlation and clustering `try` blocks never propagate an
exception, whatever their bodies do: for every behaviour of the two stage
bodies, `analyze_performance` still returns a full result; a stage that
raises (`Except.error`) only turns its own field into the diagnostic string
of the corresponding `except` branch, a stage that completes normally yields
its structured value (or leaves the key absent), and every other field of the
result — and the caller-visible frame — is exactly what the concrete
`analyze_performance` produces. -/
theorem analyze_performance_c7_try_blocks
    (corr : Table → Except String (Option (List CorrEntry)))
    (clus : List StudentAggRow → Except String (Option (List (String × ClusterInfo))))
    (df : Table) (rt : ℚ) (mr : ℕ) :
    (∀ e, corr (tableAfterTrends df) = .error e →
        (analyzePerformanceWith corr clus df rt mr).1.correlations =
          some (.inr ("Не удалось вычислить корреляции: " ++ e))) ∧
    (∀ e, clus (filteredStats df mr) = .error e →
        (analyzePerformanceWith corr clus df rt mr).1.clusters =
          some (.inr ("Не удалось выполнить кластеризацию: " ++ e))) ∧
    (∀ v, corr (tableAfterTrends df) = .ok v →
        (analyzePerformanceWith corr clus df rt mr).1.correlations = v.map Sum.inl) ∧
    (∀ v, clus (filteredStats df mr) = .ok v →
        (analyzePerformanceWith corr clus df rt mr).1.clusters = v.map Sum.inl) ∧
    (analyzePerformanceWith corr clus df rt mr).1.overall =
      (analyzePerformance df rt mr).1.overall ∧
    (analyzePerformanceWith corr clus df rt mr).1.by_subject =
      (analyzePerformance df rt mr).1.by_subject ∧
    (analyzePerformanceWith corr clus df rt mr).1.by_group =
      (analyzePerformance df rt mr).1.by_group ∧
    (analyzePerformanceWith corr clus df rt mr).1.risk_students =
      (analyzePerformance df rt mr).1.risk_students ∧
    (analyzePerformanceWith corr clus df rt mr).1.trends =
      (analyzePerformance df rt mr).1.trends ∧
    (analyzePerformanceWith corr clus df rt mr).2 = (analyzePerformance df rt mr).2 := by
  refine ⟨?_, ?_, ?_, ?_, rfl, rfl, rfl, rfl, rfl, rfl⟩
  · intro e he; simp [analyzePerformanceWith, he]
  · intro e he; simp [analyzePerformanceWith, he]
  · intro v hv; cases v <;> simp [analyzePerformanceWith, hv]
  · intro v hv; cases v <;> simp [analyzePerformanceWith, hv]

/-- Witness for C7: stage bodies that raise, applied to the concrete empty
frame — both diagnostic strings appear in the returned result. -/
theorem analyze_performance_c7_try_blocks_witness :
    (analyzePerformanceWith (fun _ => .error "boom") (fun _ => .error "bang")
        emptyTable 5 3).1.correlations =
      some (.inr ("Не удалось вычислить корреляции: " ++ "boom")) ∧
    (analyzePerformanceWith (fun _ => .error "boom") (fun _ => .error "bang")
        emptyTable 5 3).1.clusters =
      some (.inr ("Не удалось выполнить кластеризацию: " ++ "bang")) :=
  ⟨(analyze_performance_c7_try_blocks (fun _ => .error "boom") (fun _ => .error "bang")
      emptyTable 5 3).1 "boom" rfl,
   (analyze_performance_c7_try_blocks (fun _ => .error "boom") (fun _ => .error "bang")
      emptyTable 5 3).2.1 "bang" rfl⟩

/-- Monotonicity of the percentage rates in the grade cutoff. -/
theorem ratePct_mono (l : List ℚ) {a b : ℚ} (h : b ≤ a) : ratePct a l ≤ ratePct b l := by
  unfold ratePct
  have hc : l.countP (fun g => decide (a ≤ g)) ≤ l.countP (fun g => decide (b ≤ g)) := by
    apply List.countP_mono_left
    intro x _ hx
    simp only [decide_eq_true_eq] at hx ⊢
    exact le_trans h hx
  have hcq : (l.countP (fun g => decide (a ≤ g)) : ℚ) ≤ (l.countP (fun g => decide (b ≤ g)) : ℚ) := by
    exact_mod_cast hc
  have hn : (0:ℚ) ≤ ((l.length : ℚ))⁻¹ := inv_nonneg.mpr (Nat.cast_nonneg _)
  rw [div_eq_mul_inv, div_eq_mul_inv]
  exact mul_le_mul_of_nonneg_right (mul_le_mul_of_nonneg_right hcq hn) (by norm_num)

/-- C9: in every result of `analyze_performance`, every per-subject
`excellent_rate` (share of grades ≥ 9) is at most the `pass_rate` (share of
grades ≥ 4), because the 9-cutoff population is contained in the 4-cutoff
population. -/
theorem analyze_performance_c9_rates (df : Table) (rt : ℚ) (mr : ℕ)
    (s : String) (st : SubjectStats)
    (h : (s, st) ∈ (analyzePerformance df rt mr).1.by_subject) :
    st.excellent_rate ≤ st.pass_rate := by
  have h' : (s, st) ∈ bySubjectStats df := h
  unfold bySubjectStats at h'
  rw [List.mem_map] at h'
  obtain ⟨sub, _, heq⟩ := h'
  have hst : st = subjectStatsOf (df.rows.filter (fun r => r.subject == sub)) :=
    congrArg Prod.snd heq.symm
  rw [hst]
  exact ratePct_mono _ (by norm_num)

/-- Witness for C9 at the concrete one-row frame: its single subject entry has
excellent_rate 0 ≤ pass_rate 100. -/
theorem analyze_performance_c9_rates_witness :
    oneRowMathStats.excellent_rate ≤ oneRowMathStats.pass_rate :=
  analyze_performance_c9_rates oneRowTable 5 3 "Math" oneRowMathStats (by
    show ("Math", oneRowMathStats) ∈ bySubjectStats oneRowTable
    norm_num [bySubjectStats, subjectStatsOf, oneRowTable, oneRowMathStats,
      uniqueFirst, dedupSeen, gradesOf, qMean, medianQ, sampleVar, ratePct,
      valueCounts, List.insertionSort, List.orderedInsert])

/-- Factors of a produced at-risk row are nonempty and measured by the score. -/
theorem atRiskInfoFor_some {dfc : Table} {th : ℚ} {mw : ℕ} {dt : ℚ} {sid : String}
    {r : AtRiskRow} (h : atRiskInfoFor dfc th mw dt sid = some r) :
    r.risk_factors ≠ [] ∧ r.risk_score = r.risk_factors.length := by
  unfold atRiskInfoFor at h
  by_cases hne : (riskFactorsFor dfc th mw dt sid).isEmpty
  · rw [if_pos hne] at h
    exact absurd h (by simp)
  · rw [if_neg hne] at h
    obtain rfl := Option.some.inj h
    exact ⟨by simpa [List.isEmpty_iff] using hne, rfl⟩

/-- C4: the output of `identify_at_risk_students` is sorted non-increasing by
risk score, with equal scores ordered non-decreasing by mean grade, and every
emitted row has at least one triggered risk factor (students with zero
factors never appear). -/
theorem identify_at_risk_c4 (df : Table) (th : ℚ) (mw : ℕ) (dt : ℚ) :
    (identifyAtRisk df th mw dt).Pairwise
      (fun a b => b.risk_score ≤ a.risk_score ∧
        (a.risk_score = b.risk_score → a.avg_grade ≤ b.avg_grade)) ∧
    ∀ r ∈ identifyAtRisk df th mw dt, r.risk_factors ≠ [] ∧ 1 ≤ r.risk_score := by
  constructor
  · have h : (identifyAtRisk df th mw dt).Pairwise atRiskLe := by
      unfold identifyAtRisk
      exact List.sorted_insertionSort atRiskLe _
    refine h.imp ?_
    intro a b hab
    rcases hab with hlt | ⟨heq, hle⟩
    · exact ⟨le_of_lt hlt, fun he => absurd (he ▸ hlt) (lt_irrefl _)⟩
    · exact ⟨le_of_eq heq.symm, fun _ => hle⟩
  · intro r hr
    unfold identifyAtRisk at hr
    rw [List.mem_insertionSort, List.mem_filterMap] at hr
    obtain ⟨sid, _, hsome⟩ := hr
    obtain ⟨hne, hlen⟩ := atRiskInfoFor_some hsome
    refine ⟨hne, ?_⟩
    rw [hlen]
    exact List.length_pos.mpr hne

theorem riskTable_sdata :
    riskTable.rows.filter (fun r => r.student_id == "s1") = riskTable.rows := by decide

theorem riskTable_weekly :
    weeklyMeansBy riskTable.rows (fun r => r.week) =
      [(1, 8), (2, 8), (3, 8), (4, 8), (5, 4), (6, 4)] := by
  norm_num [weeklyMeansBy, riskTable, uniqueFirst, dedupSeen, List.insertionSort,
    List.orderedInsert, gradesOf, qMean]

theorem riskTable_slope : posSlope [8, 8, 8, 8, 4, 4] = -(32/35) := by
  norm_num [posSlope, lsSlope, List.range, List.range.loop]

theorem riskTable_factors :
    riskFactorsFor riskTable 5 3 (3/2) "s1" =
      [declineFactor (-(32/35)), sharpDropFactor 8 (16/3)] := by
  unfold riskFactorsFor
  simp only [riskTable_sdata]
  rw [riskTable_weekly]
  norm_num [riskTable, gradesOf, qMean, sampleVar, seriesMean, uniqueFirst, dedupSeen,
    riskTable_slope]

theorem riskTable_info :
    atRiskInfoFor riskTable 5 3 (3/2) "s1" = some riskTableRow := by
  have hne : (riskFactorsFor riskTable 5 3 (3/2) "s1").isEmpty = false := by
    rw [riskTable_factors]; rfl
  unfold atRiskInfoFor
  simp only [riskTable_sdata, hne, riskTable_factors, Bool.false_eq_true, if_false]
  norm_num [riskTable, riskTableRow, gradesOf, qMean, sampleVar, uniqueFirst, dedupSeen]

theorem riskTable_eval :
    identifyAtRisk riskTable 5 3 (3/2) = [riskTableRow] := by
  have hstuds : uniqueFirst (riskTable.rows.map (fun r => r.student_id)) = ["s1"] := by
    decide
  show ((uniqueFirst (riskTable.rows.map (fun r => r.student_id))).filterMap
      (atRiskInfoFor riskTable 5 3 (3/2))).insertionSort atRiskLe = [riskTableRow]
  rw [hstuds]
  simp [List.filterMap_cons, riskTable_info, List.insertionSort]

/-- Witness for C4 at the concrete frame `riskTable`: the sorted-output
property holds there, and its (sole) member has a nonempty factor list. -/
theorem identify_at_risk_c4_witness :
    (identifyAtRisk riskTable 5 3 (3/2)).Pairwise
      (fun a b => b.risk_score ≤ a.risk_score ∧
        (a.risk_score = b.risk_score → a.avg_grade ≤ b.avg_grade)) ∧
    (riskTableRow.risk_factors ≠ [] ∧ 1 ≤ riskTableRow.risk_score) :=
  ⟨(identify_at_risk_c4 riskTable 5 3 (3/2)).1,
   (identify_at_risk_c4 riskTable 5 3 (3/2)).2 riskTableRow
     (by rw [riskTable_eval]; exact List.mem_singleton.mpr rfl)⟩

/-- C5: on the §8 scenario — weekly means [8,8,8,8,4,4], threshold 5.0,
min_weeks 3, decline_threshold 1.5 — the student is flagged with exactly the
declining-trend factor (position-axis least-squares slope −32/35 < −0.2) and
the sharp-drop factor (first-half mean 8 minus second-half mean 16/3 of the
halves split at index len//2 = 3 exceeds 1.5), for a risk score of 2. -/
theorem identify_at_risk_c5_scenario :
    (identifyAtRisk riskTable 5 3 (3/2)).map
      (fun r => (r.student_id, r.risk_score, r.risk_factors)) =
    [("s1", 2, [declineFactor (-(32/35)), sharpDropFactor 8 (16/3)])] := by
  rw [riskTable_eval]
  rfl

/-- C8: for every list of risk-factor strings, `generate_recommendations`
returns at most 5 entries with no duplicates, and the list is exactly the
concatenation of the remediation lists of the matched map keys, de-duplicated
preserving first occurrence and truncated to 5 entries. -/
theorem generate_recommendations_c8 (fs : List String) :
    (generateRecommendations fs).length ≤ 5 ∧
    (generateRecommendations fs).Nodup ∧
    generateRecommendations fs =
      (dedupSeen [] (fs.flatMap (fun factor => recommendationsMap.flatMap
        (fun kv => if isSubstrB kv.1 factor then kv.2 else [])))).take 5 := by
  refine ⟨?_, ?_, rfl⟩
  · show ((dedupSeen [] (fs.flatMap (fun factor => recommendationsMap.flatMap
      (fun kv => if isSubstrB kv.1 factor then kv.2 else [])))).take 5).length ≤ 5
    rw [List.length_take]
    exact min_le_left _ _
  · show ((dedupSeen [] (fs.flatMap (fun factor => recommendationsMap.flatMap
      (fun kv => if isSubstrB kv.1 factor then kv.2 else [])))).take 5).Nodup
    exact List.Nodup.sublist (List.take_sublist 5 _) (dedupSeen_nodup _ []).1

/-- Structure of every row emitted by `predict_final_grades`: the fitted slope
is the least-squares slope over the pair's *actual week numbers*, and the
emitted grade is the week-16 extrapolation clamped to [1,10]. -/
theorem predictionFor_some {df : Table} {cw : ℕ} {sid subj : String} {p : Prediction}
    (h : predictionFor df cw sid subj = some p) :
    p.student_id = sid ∧ p.subject = subj ∧
    p.trend_slope = lsSlope ((pairWeekly df sid subj).map (fun q => (q.1 : ℚ)))
        ((pairWeekly df sid subj).map (fun q => q.2)) ∧
    p.predicted_final_grade =
      max 1 (min 10 (p.trend_slope * 16 +
        lsIntercept ((pairWeekly df sid subj).map (fun q => (q.1 : ℚ)))
          ((pairWeekly df sid subj).map (fun q => q.2)))) := by
  unfold predictionFor at h
  dsimp only at h
  by_cases h1 : df.hasWeek = true
  · rw [if_pos h1] at h
    by_cases h2 : 2 ≤ (pairWeekly df sid subj).length
    · rw [if_pos h2] at h
      obtain rfl := Option.some.inj h
      exact ⟨rfl, rfl, rfl, rfl⟩
    · rw [if_neg h2] at h
      exact absurd h (by simp)
  · rw [if_neg h1] at h
    exact absurd h (by simp)

/-- C6: every prediction row emitted by `predict_final_grades` has its
`predicted_final_grade` clamped into [1,10], whatever the fitted slope. -/
theorem predict_final_grades_c6 (df : Table) (cw : Option ℕ) (p : Prediction)
    (h : p ∈ predictFinalGrades df cw) :
    1 ≤ p.predicted_final_grade ∧ p.predicted_final_grade ≤ 10 := by
  unfold predictFinalGrades at h
  simp only [List.mem_insertionSort, List.mem_flatMap, List.mem_filterMap] at h
  obtain ⟨sid, _, subj, _, hsome⟩ := h
  obtain ⟨_, _, _, hpred⟩ := predictionFor_some hsome
  rw [hpred]
  exact ⟨le_max_left _ _, max_le (by norm_num) (min_le_left _ _)⟩

/-- C10: `predict_final_grades` fits its line over the actual week numbers of
the pair (not 0-based positions) and emits the clamped value of
`slope * 16 + intercept`; the position-axis fit used by the declining-trend
test in `identify_at_risk_students` (`posSlope`) is a different function of
the same weekly means whenever the weeks are non-consecutive, as the
concrete series weeks [1,2,4] with means [10,9,7] shows: slope −1 over the
weeks, −3/2 over positions. -/
theorem predict_final_grades_c10 :
    (∀ (df : Table) (cw : Option ℕ) (p : Prediction), p ∈ predictFinalGrades df cw →
        p.trend_slope = lsSlope ((pairWeekly df p.student_id p.subject).map (fun q => (q.1 : ℚ)))
            ((pairWeekly df p.student_id p.subject).map (fun q => q.2)) ∧
        p.predicted_final_grade =
          max 1 (min 10 (p.trend_slope * 16 +
            lsIntercept ((pairWeekly df p.student_id p.subject).map (fun q => (q.1 : ℚ)))
              ((pairWeekly df p.student_id p.subject).map (fun q => q.2))))) ∧
    lsSlope [1, 2, 4] [10, 9, 7] = -1 ∧
    posSlope [10, 9, 7] = -(3/2) ∧
    lsSlope [1, 2, 4] [10, 9, 7] ≠ posSlope [10, 9, 7] := by
  refine ⟨?_, ?_, ?_, ?_⟩
  · intro df cw p h
    unfold predictFinalGrades at h
    simp only [List.mem_insertionSort, List.mem_flatMap, List.mem_filterMap] at h
    obtain ⟨sid, _, subj, _, hsome⟩ := h
    obtain ⟨hsid, hsubj, hslope, hpred⟩ := predictionFor_some hsome
    rw [hsid, hsubj]
    exact ⟨hslope, hpred⟩
  · norm_num [lsSlope]
  · norm_num [posSlope, lsSlope, List.range, List.range.loop]
  · norm_num [posSlope, lsSlope, List.range, List.range.loop]

theorem predTable_weekly :
    pairWeekly predTable "s1" "Math" = [(1, 10), (2, 9), (4, 7)] := by
  norm_num [pairWeekly, weeklyMeansBy, predTable, uniqueFirst, dedupSeen,
    List.insertionSort, List.orderedInsert, gradesOf, qMean]

theorem predTable_pred :
    predictionFor predTable 4 "s1" "Math" = some predRow := by
  have hw : predTable.hasWeek = true := rfl
  have hg : predTable.hasGroup = false := rfl
  norm_num [predictionFor, predTable_weekly, hw, hg, lsSlope, lsIntercept, qMean,
    min_def, max_def, predRow]

theorem predTable_eval :
    predictFinalGrades predTable (some 4) = [predRow] := by
  have h1 : uniqueFirst (predTable.rows.map (fun r => r.student_id)) = ["s1"] := by decide
  have h2 : uniqueFirst ((predTable.rows.filter (fun r => r.student_id == "s1")).map
      (fun r => r.subject)) = ["Math"] := by decide
  show ((uniqueFirst (predTable.rows.map (fun r => r.student_id))).flatMap (fun sid =>
      (uniqueFirst ((predTable.rows.filter (fun r => r.student_id == sid)).map
        (fun r => r.subject))).filterMap
          (fun subj => predictionFor predTable 4 sid subj))).insertionSort predLe = [predRow]
  rw [h1]
  simp only [List.flatMap_cons, List.flatMap_nil, h2, List.filterMap_cons,
    predTable_pred, List.filterMap_nil, List.append_nil]
  rfl

/-- Witness for C6: the concrete prediction on `predTable` — an extrapolation
to −5, clamped to 1 — satisfies the bounds. -/
theorem predict_final_grades_c6_witness :
    1 ≤ predRow.predicted_final_grade ∧ predRow.predicted_final_grade ≤ 10 :=
  predict_final_grades_c6 predTable (some 4) predRow
    (by rw [predTable_eval]; exact List.mem_singleton.mpr rfl)

/-- Witness for C10 at the concrete frame `predTable`, discharging the
membership hypothesis of the first conjunct. -/
theorem predict_final_grades_c10_witness :
    predRow.trend_slope =
      lsSlope ((pairWeekly predTable predRow.student_id predRow.subject).map (fun q => (q.1 : ℚ)))
        ((pairWeekly predTable predRow.student_id predRow.subject).map (fun q => q.2)) ∧
    predRow.predicted_final_grade =
      max 1 (min 10 (predRow.trend_slope * 16 +
        lsIntercept ((pairWeekly predTable predRow.student_id predRow.subject).map (fun q => (q.1 : ℚ)))
          ((pairWeekly predTable predRow.student_id predRow.subject).map (fun q => q.2)))) :=
  predict_final_grades_c10.1 predTable (some 4) predRow
    (by rw [predTable_eval]; exact List.mem_singleton.mpr rfl)

end EduAnalytics

